import Mathlib

/-!
# Verification of the NVML binding's marshaling layer

Shallow embedding of the marshaling/binding layer of the `nvml-wrapper`
repository (files `src/lib.rs`, `src/device.rs`, `src/enum_wrappers.rs`,
`src/struct_wrappers.rs`).  Native out-parameters and status codes are made
explicit function arguments; machine integers are modelled as `Nat` (the
values written back by the native library fit their C types by assumption);
fallible operations return `Except`.

Code of the repository that lives in sibling crates not present under
`src/` (the `nvml_errors` status translator, the `nvml_derive` enum
conversions, the `nvml_sys` native declarations, `event.rs`, `enums.rs`) is
modelled from the specification; each such definition carries a doc comment
saying so.
-/

namespace Nvml

/-- The closed error taxonomy of the binding.

Modelled from the spec: the `nvml_errors` crate is not under `src/`; §7 of
the spec lists the kinds (`Msg` is the message kind an error-chain style
`chain_err` call attaches, observable in `device.rs` at the
`register_events` compensating-destroy path). -/
inductive ErrorKind where
  | Uninitialized
  | InvalidArg
  | NotSupported
  | InsufficientSize
  | InsufficientPower
  | DriverNotLoaded
  | TimedOut
  | InUse
  | CorruptedInfoROM
  | NoPermission
  | GpuIsLost
  | ResetRequired
  | OperatingSystemMismatch
  | NotFound
  | IrqIssue
  | Utf8DecodeError
  | UnrecognizedEnumVariant
  | UnexpectedNullByte
  | Unknown
  | Msg (s : String)
  deriving DecidableEq, Repr

/-- A structured error: a kind plus an optional chain of causes.

Modelled from the spec: the `nvml_errors` crate (an error-chain style error
type) is not under `src/`; an error is its kind, and chaining wraps an
existing error as the cause of a new one. -/
inductive NvmlError where
  | leaf (kind : ErrorKind)
  | chained (kind : ErrorKind) (cause : NvmlError)
  deriving DecidableEq, Repr

/-- The kind at the head of an error. -/
def NvmlError.kind : NvmlError → ErrorKind
  | .leaf k => k
  | .chained k _ => k

/-- All kinds appearing anywhere in an error's chain, head first. -/
def NvmlError.kinds : NvmlError → List ErrorKind
  | .leaf k => [k]
  | .chained k c => k :: c.kinds

/-- `result.chain_err(|| msg)`: wrap an error as the cause of a new
message-kinded error.

Modelled from the spec: the error-chain machinery re-exported by
`nvml_errors` is not under `src/`; `chain_err` extends the chain with a new
message entry whose cause is the receiver's error. -/
def chainErr (msg : String) (e : NvmlError) : NvmlError :=
  .chained (.Msg msg) e

/-- The status-code translator `nvml_try` through which every native call
passes.

Modelled from the spec: the `nvml_errors` crate is not under `src/`.  §4.1:
code `0` is the success signal, each documented status code maps to its
distinct kind, and every unrecognized code maps to `Unknown`.  The spec does
not fix the numeric values, so the documented codes are modelled as `1`-based
indices in the order §7 lists the native kinds. -/
def nvml_try (code : Nat) : Except NvmlError Unit :=
  match code with
  | 0 => .ok ()
  | 1 => .error (.leaf .Uninitialized)
  | 2 => .error (.leaf .InvalidArg)
  | 3 => .error (.leaf .NotSupported)
  | 4 => .error (.leaf .InsufficientSize)
  | 5 => .error (.leaf .InsufficientPower)
  | 6 => .error (.leaf .DriverNotLoaded)
  | 7 => .error (.leaf .TimedOut)
  | 8 => .error (.leaf .InUse)
  | 9 => .error (.leaf .CorruptedInfoROM)
  | 10 => .error (.leaf .NoPermission)
  | 11 => .error (.leaf .GpuIsLost)
  | 12 => .error (.leaf .ResetRequired)
  | 13 => .error (.leaf .OperatingSystemMismatch)
  | 14 => .error (.leaf .NotFound)
  | 15 => .error (.leaf .IrqIssue)
  | _ => .error (.leaf .Unknown)

/-! ## Session lifecycle (`lib.rs`)

`NVML::shutdown(self)` runs `nvml_try(nvmlShutdown())` and returns its
result; the `Drop` implementation runs the same native call and, on error,
prints a warning and panics.  The status code the native `nvmlShutdown`
returns is the explicit argument of both embeddings. -/

/-- `NVML::shutdown` (`lib.rs`): consume the session, call native shutdown
through `nvml_try`, surface the translated result to the caller. -/
def NVML.shutdown (status : Nat) : Except NvmlError Unit :=
  nvml_try status

/-- Outcome of running a `Drop` implementation: either it returns normally
or it raises a fatal unwinding failure carrying an error. -/
inductive DropOutcome where
  | normal
  | fatal (e : NvmlError)
  deriving DecidableEq, Repr

/-- `impl Drop for NVML` (`lib.rs`): call native shutdown through
`nvml_try`; on `Ok` return normally, on `Err` print a warning and panic with
the error (a fatal, non-returning failure). -/
def NVML.dropImpl (status : Nat) : DropOutcome :=
  match nvml_try status with
  | .ok () => .normal
  | .error e => .fatal e

/-! ## Event registration (`device.rs`, `Device::register_events`)

The method matches on the translated result of
`nvmlDeviceRegisterEvents`: on `Ok` it returns the set; on an error whose
kind is `Unknown` it calls `set.destroy()` exactly once, propagating a
destroy failure through `chain_err("Error is from destroy call")` and
otherwise returning `Err(ErrorKind::Unknown)`; any other error is returned
unchanged.  The translated results of the two native calls (registration
and destroy) are explicit arguments; the second component of the result
counts how many destroy calls were issued on the set. -/

/-- An `EventSet` wraps one native event-set handle.

Modelled from the spec: `event.rs` is not under `src/`; §3 describes the
`EventSet` as a wrapper of a native-allocated collection, so it carries the
opaque native handle and nothing else.  Its `destroy` method forwards one
native destroy call, whose translated outcome is the `destroyRet` argument
of `Device.register_events` below. -/
structure EventSet where
  set : Nat
  deriving DecidableEq, Repr

/-- `Device::register_events` (`device.rs`): result of the call, paired
with the number of destroy calls issued on the passed-in set. -/
def Device.register_events (set : EventSet) (regRet : Except NvmlError Unit)
    (destroyRet : Except NvmlError Unit) : Except NvmlError EventSet × Nat :=
  match regRet with
  | .ok () => (.ok set, 0)
  | .error e =>
    if e.kind = .Unknown then
      match destroyRet with
      | .ok () => (.error (.leaf .Unknown), 1)
      | .error d => (.error (chainErr "Error is from destroy call" d), 1)
    else
      (.error e, 0)

/-! ## Count-reported array queries (`device.rs`)

Each query passes the requested capacity in, the native call overwrites it
with the actual element count and fills an output buffer.  The translated
status, the written-back count and the buffer contents are explicit
arguments.  Buffers are modelled as functions from element index to
contents; `running_compute_processes` and `retired_pages` read the buffer
starting at its own address (`&first_item as *const _`), while
`accounting_pids` casts the *value* of the first buffer element to a
pointer (`first_item as *const c_uint`), so it is given the whole
word-addressed native memory together with the buffer's address. -/

/-- Native `nvmlProcessInfo_t` struct.

Modelled from the spec: the `nvml_sys` declarations are not under `src/`;
§2 describes them as pure data.  Fields are the process id and the used GPU
memory value read by `struct_wrappers.rs`. -/
structure nvmlProcessInfo_t where
  pid : Nat
  usedGpuMemory : Nat
  deriving DecidableEq, Repr

/-- `UsedGpuMemory` wrapper of the raw native memory value.

Modelled from the spec: `enums.rs` is not under `src/`; §3 only requires
result values to be owned copies of the native contents, so the wrapper
keeps the raw value. -/
structure UsedGpuMemory where
  raw : Nat
  deriving DecidableEq, Repr

/-- `ProcessInfo` (`struct_wrappers.rs`). -/
structure ProcessInfo where
  pid : Nat
  used_gpu_memory : UsedGpuMemory
  deriving DecidableEq, Repr

/-- `impl From<nvmlProcessInfo_t> for ProcessInfo` (`struct_wrappers.rs`). -/
def ProcessInfo.fromNative (s : nvmlProcessInfo_t) : ProcessInfo :=
  { pid := s.pid
    used_gpu_memory := ⟨s.usedGpuMemory⟩ }

/-- `Device::running_compute_processes` (`device.rs`): on success, build the
vector from the first `countOut` entries of the output buffer (the count
written back by the native call), mapped through `ProcessInfo::from`.  The
requested capacity `size` is passed to the native call (whose behaviour is
the `ret`/`countOut`/`buf` arguments) and plays no further role. -/
def Device.running_compute_processes (size : Nat) (ret : Except NvmlError Unit)
    (countOut : Nat) (buf : Nat → nvmlProcessInfo_t) :
    Except NvmlError (List ProcessInfo) :=
  match ret with
  | .error e => .error e
  | .ok () =>
    let _ := size
    .ok (((List.range countOut).map fun i => ProcessInfo.fromNative (buf i)))

/-- `Device::retired_pages` (`device.rs`): on success, copy the first
`pageCountOut` addresses out of the output buffer. -/
def Device.retired_pages (size : Nat) (ret : Except NvmlError Unit)
    (pageCountOut : Nat) (buf : Nat → Nat) : Except NvmlError (List Nat) :=
  match ret with
  | .error e => .error e
  | .ok () =>
    let _ := size
    .ok ((List.range pageCountOut).map buf)

/-- `Device::accounting_pids` (`device.rs`): the native call writes the pids
into the buffer at word address `bufAddr` of the native memory `mem` and
writes back `countOut`.  The source then builds the slice from
`first_item as *const c_uint` — the *value* of the first buffer word cast to
a pointer, not the buffer's address — so on success the returned vector
reads `countOut` words starting at address `mem bufAddr`. -/
def Device.accounting_pids (size : Nat) (ret : Except NvmlError Unit)
    (countOut : Nat) (bufAddr : Nat) (mem : Nat → Nat) :
    Except NvmlError (List Nat) :=
  match ret with
  | .error e => .error e
  | .ok () =>
    let _ := size
    .ok ((List.range countOut).map fun i => mem (mem bufAddr + i))

/-! ## Fixed-capacity string buffers (`device.rs`, `struct_wrappers.rs`)

A successful native call fills a caller-allocated fixed-size byte buffer
with a null-terminated string.  The source reads it with
`CStr::from_ptr(..)` (the bytes strictly before the first null terminator)
and decodes with `.to_str()?` (UTF-8 validation); text is modelled as the
underlying byte list. -/

/-- Is `b` a UTF-8 continuation byte (`0x80..=0xBF`)? -/
def isCont (b : Nat) : Bool :=
  0x80 ≤ b && b ≤ 0xBF

/-- UTF-8 validity of a byte sequence.

Modelled from the spec: the decoding the source delegates to the standard
library's `str::from_utf8` is not under `src/`; §4.3 and §6 require decoding
the bytes as text and failing on invalid encoding.  This is the standard
UTF-8 acceptance automaton (RFC 3629 well-formed byte sequences). -/
def utf8Valid : List Nat → Bool
  | [] => true
  | b :: rest =>
    if b ≤ 0x7F then utf8Valid rest
    else if 0xC2 ≤ b && b ≤ 0xDF then
      match rest with
      | c1 :: rest2 => isCont c1 && utf8Valid rest2
      | [] => false
    else if b = 0xE0 then
      match rest with
      | c1 :: c2 :: rest3 =>
        (0xA0 ≤ c1 && c1 ≤ 0xBF) && isCont c2 && utf8Valid rest3
      | _ => false
    else if (0xE1 ≤ b && b ≤ 0xEC) || b = 0xEE || b = 0xEF then
      match rest with
      | c1 :: c2 :: rest3 => isCont c1 && isCont c2 && utf8Valid rest3
      | _ => false
    else if b = 0xED then
      match rest with
      | c1 :: c2 :: rest3 =>
        (0x80 ≤ c1 && c1 ≤ 0x9F) && isCont c2 && utf8Valid rest3
      | _ => false
    else if b = 0xF0 then
      match rest with
      | c1 :: c2 :: c3 :: rest4 =>
        (0x90 ≤ c1 && c1 ≤ 0xBF) && isCont c2 && isCont c3 && utf8Valid rest4
      | _ => false
    else if 0xF1 ≤ b && b ≤ 0xF3 then
      match rest with
      | c1 :: c2 :: c3 :: rest4 =>
        isCont c1 && isCont c2 && isCont c3 && utf8Valid rest4
      | _ => false
    else if b = 0xF4 then
      match rest with
      | c1 :: c2 :: c3 :: rest4 =>
        (0x80 ≤ c1 && c1 ≤ 0x8F) && isCont c2 && isCont c3 && utf8Valid rest4
      | _ => false
    else false

/-- `CStr::from_ptr` over the buffer: the bytes strictly before the first
null terminator. -/
def cstrBytes (buf : List Nat) : List Nat :=
  buf.takeWhile (· ≠ 0)

/-- `.to_str()?` on a `CStr`: the byte content as text when it is valid
UTF-8, a `Utf8DecodeError` otherwise (text is modelled as its bytes).  The
function is total: no input panics. -/
def cstrToStr (bytes : List Nat) : Except NvmlError (List Nat) :=
  if utf8Valid bytes then .ok bytes else .error (.leaf .Utf8DecodeError)

/-- `NVML_DEVICE_NAME_BUFFER_SIZE`.

Modelled from the spec: the `nvml_sys` buffer-size constants are not under
`src/`; §6 requires them to match the vendor header, where the device-name
buffer size is 64. -/
def NVML_DEVICE_NAME_BUFFER_SIZE : Nat := 64

/-- A `Device` wraps one native device handle and a lifetime marker with no
runtime content (`device.rs`, `struct Device`); there is no cache field. -/
structure Device where
  device : Nat
  deriving DecidableEq, Repr

/-- `Device::name` (`device.rs`): allocate the fixed-size buffer, let the
native call fill it (the translated status `ret` and the filled buffer
`buf` are explicit), then decode the bytes before the first null terminator
as UTF-8 text. -/
def Device.name (ret : Except NvmlError Unit) (buf : List Nat) :
    Except NvmlError (List Nat) :=
  match ret with
  | .error e => .error e
  | .ok () => cstrToStr (cstrBytes buf)

/-- One complete `Device::name` call against a native library state: the
wrapper performs the native call on its stored handle (the native library
maps the handle to a translated status and a filled buffer) and decodes the
result.  The wrapper holds nothing but the handle, so the native behaviour
`native` and the handle are the only inputs. -/
def Device.nameQuery (native : Nat → Except NvmlError Unit × List Nat)
    (d : Device) : Except NvmlError (List Nat) :=
  Device.name (native d.device).1 (native d.device).2

/-- Native `nvmlPciInfo_t` struct.

Modelled from the spec: the `nvml_sys` declarations are not under `src/`;
the fields are the ones `struct_wrappers.rs` reads (`busId` is the
fixed-capacity null-terminated byte buffer). -/
structure nvmlPciInfo_t where
  busId : List Nat
  bus : Nat
  device : Nat
  domain : Nat
  pciDeviceId : Nat
  pciSubSystemId : Nat
  deriving DecidableEq, Repr

/-- `PciInfo` (`struct_wrappers.rs`); `bus_id` text is modelled as its
bytes. -/
structure PciInfo where
  bus : Nat
  bus_id : List Nat
  device : Nat
  domain : Nat
  pci_device_id : Nat
  pci_sub_system_id : Nat
  deriving DecidableEq, Repr

/-- `PciInfo::try_from` (`struct_wrappers.rs`): decode `busId` through
`CStr::from_ptr(..).to_str()?` and copy the numeric fields. -/
def PciInfo.try_from (s : nvmlPciInfo_t) : Except NvmlError PciInfo :=
  match cstrToStr (cstrBytes s.busId) with
  | .error e => .error e
  | .ok bid =>
    .ok { bus := s.bus
          bus_id := bid
          device := s.device
          domain := s.domain
          pci_device_id := s.pciDeviceId
          pci_sub_system_id := s.pciSubSystemId }

/-! ## Enum translators (`enum_wrappers.rs`)

Each language-level enumeration mirrors a closed native integer
enumeration.  The variants and their order are declared in
`enum_wrappers.rs`; the conversions themselves (`into_c` to the native
integer, `try_from` from it) are generated by the `EnumWrapper` derive of
the `nvml_derive` crate, which is not under `src/`.  Modelled from the
spec (§4.2): `to_native` maps every variant to its one native integer,
`from_native` fails with `UnrecognizedEnumVariant` on any integer that
corresponds to no declared variant.  The spec does not fix the integer
values, so they are modelled as declaration-order indices. -/

/-- Generic `from_native`: the variant whose code is `n`, or an
`UnrecognizedEnumVariant` error when no declared variant has code `n`. -/
def enumFromNative (variants : List α) (n : Nat) : Except NvmlError α :=
  match variants[n]? with
  | some v => .ok v
  | none => .error (.leaf .UnrecognizedEnumVariant)

/-- `Api` (`enum_wrappers.rs`). -/
inductive Api where
  | ApplicationClocks
  | AutoBoostedClocks
  deriving DecidableEq, Repr

/-- Declaration-order variant list of `Api`. -/
def Api.variants : List Api := [.ApplicationClocks, .AutoBoostedClocks]

/-- Derive-generated `Api::into_c`. -/
def Api.into_c : Api → Nat
  | .ApplicationClocks => 0
  | .AutoBoostedClocks => 1

/-- Derive-generated `Api::try_from`. -/
def Api.try_from : Nat → Except NvmlError Api := enumFromNative Api.variants

/-- `Clock` (`enum_wrappers.rs`). -/
inductive Clock where
  | Graphics
  | SM
  | Memory
  | Video
  deriving DecidableEq, Repr

/-- Declaration-order variant list of `Clock`. -/
def Clock.variants : List Clock := [.Graphics, .SM, .Memory, .Video]

/-- Derive-generated `Clock::into_c`. -/
def Clock.into_c : Clock → Nat
  | .Graphics => 0
  | .SM => 1
  | .Memory => 2
  | .Video => 3

/-- Derive-generated `Clock::try_from`. -/
def Clock.try_from : Nat → Except NvmlError Clock := enumFromNative Clock.variants

/-- `ClockId` (`enum_wrappers.rs`). -/
inductive ClockId where
  | Current
  | TargetAppClock
  | DefaultAppClock
  | CustomerMaxBoost
  deriving DecidableEq, Repr

/-- Declaration-order variant list of `ClockId`. -/
def ClockId.variants : List ClockId :=
  [.Current, .TargetAppClock, .DefaultAppClock, .CustomerMaxBoost]

/-- Derive-generated `ClockId::into_c`. -/
def ClockId.into_c : ClockId → Nat
  | .Current => 0
  | .TargetAppClock => 1
  | .DefaultAppClock => 2
  | .CustomerMaxBoost => 3

/-- Derive-generated `ClockId::try_from`. -/
def ClockId.try_from : Nat → Except NvmlError ClockId :=
  enumFromNative ClockId.variants

/-- `Brand` (`enum_wrappers.rs`). -/
inductive Brand where
  | Unknown
  | Quadro
  | Tesla
  | NVS
  | GRID
  | GeForce
  deriving DecidableEq, Repr

/-- Declaration-order variant list of `Brand`. -/
def Brand.variants : List Brand :=
  [.Unknown, .Quadro, .Tesla, .NVS, .GRID, .GeForce]

/-- Derive-generated `Brand::into_c`. -/
def Brand.into_c : Brand → Nat
  | .Unknown => 0
  | .Quadro => 1
  | .Tesla => 2
  | .NVS => 3
  | .GRID => 4
  | .GeForce => 5

/-- Derive-generated `Brand::try_from`. -/
def Brand.try_from : Nat → Except NvmlError Brand := enumFromNative Brand.variants

/-- `BridgeChip` (`enum_wrappers.rs`). -/
inductive BridgeChip where
  | PLX
  | BRO4
  deriving DecidableEq, Repr

/-- Declaration-order variant list of `BridgeChip`. -/
def BridgeChip.variants : List BridgeChip := [.PLX, .BRO4]

/-- Derive-generated `BridgeChip::into_c`. -/
def BridgeChip.into_c : BridgeChip → Nat
  | .PLX => 0
  | .BRO4 => 1

/-- Derive-generated `BridgeChip::try_from`. -/
def BridgeChip.try_from : Nat → Except NvmlError BridgeChip :=
  enumFromNative BridgeChip.variants

/-- `MemoryError` (`enum_wrappers.rs`). -/
inductive MemoryError where
  | Corrected
  | Uncorrected
  deriving DecidableEq, Repr

/-- Declaration-order variant list of `MemoryError`. -/
def MemoryError.variants : List MemoryError := [.Corrected, .Uncorrected]

/-- Derive-generated `MemoryError::into_c`. -/
def MemoryError.into_c : MemoryError → Nat
  | .Corrected => 0
  | .Uncorrected => 1

/-- Derive-generated `MemoryError::try_from`. -/
def MemoryError.try_from : Nat → Except NvmlError MemoryError :=
  enumFromNative MemoryError.variants

/-- `EccCounter` (`enum_wrappers.rs`). -/
inductive EccCounter where
  | Volatile
  | Aggregate
  deriving DecidableEq, Repr

/-- Declaration-order variant list of `EccCounter`. -/
def EccCounter.variants : List EccCounter := [.Volatile, .Aggregate]

/-- Derive-generated `EccCounter::into_c`. -/
def EccCounter.into_c : EccCounter → Nat
  | .Volatile => 0
  | .Aggregate => 1

/-- Derive-generated `EccCounter::try_from`. -/
def EccCounter.try_from : Nat → Except NvmlError EccCounter :=
  enumFromNative EccCounter.variants

/-- `MemoryLocation` (`enum_wrappers.rs`). -/
inductive MemoryLocation where
  | L1Cache
  | L2Cache
  | Device
  | RegisterFile
  | Texture
  | Shared
  deriving DecidableEq, Repr

/-- Declaration-order variant list of `MemoryLocation`. -/
def MemoryLocation.variants : List MemoryLocation :=
  [.L1Cache, .L2Cache, .Device, .RegisterFile, .Texture, .Shared]

/-- Derive-generated `MemoryLocation::into_c`. -/
def MemoryLocation.into_c : MemoryLocation → Nat
  | .L1Cache => 0
  | .L2Cache => 1
  | .Device => 2
  | .RegisterFile => 3
  | .Texture => 4
  | .Shared => 5

/-- Derive-generated `MemoryLocation::try_from`. -/
def MemoryLocation.try_from : Nat → Except NvmlError MemoryLocation :=
  enumFromNative MemoryLocation.variants

/-- `DriverModel` (`enum_wrappers.rs`, compiled on Windows only). -/
inductive DriverModel where
  | WDDM
  | WDM
  deriving DecidableEq, Repr

/-- Declaration-order variant list of `DriverModel`. -/
def DriverModel.variants : List DriverModel := [.WDDM, .WDM]

/-- Derive-generated `DriverModel::into_c`. -/
def DriverModel.into_c : DriverModel → Nat
  | .WDDM => 0
  | .WDM => 1

/-- Derive-generated `DriverModel::try_from`. -/
def DriverModel.try_from : Nat → Except NvmlError DriverModel :=
  enumFromNative DriverModel.variants

/-- `OperationMode` (`enum_wrappers.rs`). -/
inductive OperationMode where
  | AllOn
  | Compute
  | LowDP
  deriving DecidableEq, Repr

/-- Declaration-order variant list of `OperationMode`. -/
def OperationMode.variants : List OperationMode := [.AllOn, .Compute, .LowDP]

/-- Derive-generated `OperationMode::into_c`. -/
def OperationMode.into_c : OperationMode → Nat
  | .AllOn => 0
  | .Compute => 1
  | .LowDP => 2

/-- Derive-generated `OperationMode::try_from`. -/
def OperationMode.try_from : Nat → Except NvmlError OperationMode :=
  enumFromNative OperationMode.variants

/-- `InfoROM` (`enum_wrappers.rs`). -/
inductive InfoROM where
  | OEM
  | ECC
  | Power
  deriving DecidableEq, Repr

/-- Declaration-order variant list of `InfoROM`. -/
def InfoROM.variants : List InfoROM := [.OEM, .ECC, .Power]

/-- Derive-generated `InfoROM::into_c`. -/
def InfoROM.into_c : InfoROM → Nat
  | .OEM => 0
  | .ECC => 1
  | .Power => 2

/-- Derive-generated `InfoROM::try_from`. -/
def InfoROM.try_from : Nat → Except NvmlError InfoROM :=
  enumFromNative InfoROM.variants

/-- `PcieUtilCounter` (`enum_wrappers.rs`). -/
inductive PcieUtilCounter where
  | Send
  | Receive
  deriving DecidableEq, Repr

/-- Declaration-order variant list of `PcieUtilCounter`. -/
def PcieUtilCounter.variants : List PcieUtilCounter := [.Send, .Receive]

/-- Derive-generated `PcieUtilCounter::into_c`. -/
def PcieUtilCounter.into_c : PcieUtilCounter → Nat
  | .Send => 0
  | .Receive => 1

/-- Derive-generated `PcieUtilCounter::try_from`. -/
def PcieUtilCounter.try_from : Nat → Except NvmlError PcieUtilCounter :=
  enumFromNative PcieUtilCounter.variants

/-- `PerformanceState` (`enum_wrappers.rs`). -/
inductive PerformanceState where
  | Zero
  | One
  | Two
  | Three
  | Four
  | Five
  | Six
  | Seven
  | Eight
  | Nine
  | Ten
  | Eleven
  | Twelve
  | Thirteen
  | Fourteen
  | Fifteen
  | Unknown
  deriving DecidableEq, Repr

/-- Declaration-order variant list of `PerformanceState`. -/
def PerformanceState.variants : List PerformanceState :=
  [.Zero, .One, .Two, .Three, .Four, .Five, .Six, .Seven, .Eight, .Nine,
   .Ten, .Eleven, .Twelve, .Thirteen, .Fourteen, .Fifteen, .Unknown]

/-- Derive-generated `PerformanceState::into_c`. -/
def PerformanceState.into_c : PerformanceState → Nat
  | .Zero => 0
  | .One => 1
  | .Two => 2
  | .Three => 3
  | .Four => 4
  | .Five => 5
  | .Six => 6
  | .Seven => 7
  | .Eight => 8
  | .Nine => 9
  | .Ten => 10
  | .Eleven => 11
  | .Twelve => 12
  | .Thirteen => 13
  | .Fourteen => 14
  | .Fifteen => 15
  | .Unknown => 16

/-- Derive-generated `PerformanceState::try_from`. -/
def PerformanceState.try_from : Nat → Except NvmlError PerformanceState :=
  enumFromNative PerformanceState.variants

/-- `RetirementCause` (`enum_wrappers.rs`). -/
inductive RetirementCause where
  | MultipleSingleBitEccErrors
  | DoubleBitEccError
  deriving DecidableEq, Repr

/-- Declaration-order variant list of `RetirementCause`. -/
def RetirementCause.variants : List RetirementCause :=
  [.MultipleSingleBitEccErrors, .DoubleBitEccError]

/-- Derive-generated `RetirementCause::into_c`. -/
def RetirementCause.into_c : RetirementCause → Nat
  | .MultipleSingleBitEccErrors => 0
  | .DoubleBitEccError => 1

/-- Derive-generated `RetirementCause::try_from`. -/
def RetirementCause.try_from : Nat → Except NvmlError RetirementCause :=
  enumFromNative RetirementCause.variants

/-- `Sampling` (`enum_wrappers.rs`). -/
inductive Sampling where
  | Power
  | GpuUtilization
  | MemoryUtilization
  | EncoderUtilization
  | DecoderUtilization
  | ProcessorClock
  | MemoryClock
  deriving DecidableEq, Repr

/-- Declaration-order variant list of `Sampling`. -/
def Sampling.variants : List Sampling :=
  [.Power, .GpuUtilization, .MemoryUtilization, .EncoderUtilization,
   .DecoderUtilization, .ProcessorClock, .MemoryClock]

/-- Derive-generated `Sampling::into_c`. -/
def Sampling.into_c : Sampling → Nat
  | .Power => 0
  | .GpuUtilization => 1
  | .MemoryUtilization => 2
  | .EncoderUtilization => 3
  | .DecoderUtilization => 4
  | .ProcessorClock => 5
  | .MemoryClock => 6

/-- Derive-generated `Sampling::try_from`. -/
def Sampling.try_from : Nat → Except NvmlError Sampling :=
  enumFromNative Sampling.variants

/-- `TemperatureSensor` (`enum_wrappers.rs`). -/
inductive TemperatureSensor where
  | Gpu
  deriving DecidableEq, Repr

/-- Declaration-order variant list of `TemperatureSensor`. -/
def TemperatureSensor.variants : List TemperatureSensor := [.Gpu]

/-- Derive-generated `TemperatureSensor::into_c`. -/
def TemperatureSensor.into_c : TemperatureSensor → Nat
  | .Gpu => 0

/-- Derive-generated `TemperatureSensor::try_from`. -/
def TemperatureSensor.try_from : Nat → Except NvmlError TemperatureSensor :=
  enumFromNative TemperatureSensor.variants

/-- `TemperatureThreshold` (`enum_wrappers.rs`). -/
inductive TemperatureThreshold where
  | Shutdown
  | Slowdown
  deriving DecidableEq, Repr

/-- Declaration-order variant list of `TemperatureThreshold`. -/
def TemperatureThreshold.variants : List TemperatureThreshold :=
  [.Shutdown, .Slowdown]

/-- Derive-generated `TemperatureThreshold::into_c`. -/
def TemperatureThreshold.into_c : TemperatureThreshold → Nat
  | .Shutdown => 0
  | .Slowdown => 1

/-- Derive-generated `TemperatureThreshold::try_from`. -/
def TemperatureThreshold.try_from : Nat → Except NvmlError TemperatureThreshold :=
  enumFromNative TemperatureThreshold.variants

/-- `TopologyLevel` (`enum_wrappers.rs`). -/
inductive TopologyLevel where
  | Internal
  | Single
  | Multiple
  | HostBridge
  | Cpu
  | System
  deriving DecidableEq, Repr

/-- Declaration-order variant list of `TopologyLevel`. -/
def TopologyLevel.variants : List TopologyLevel :=
  [.Internal, .Single, .Multiple, .HostBridge, .Cpu, .System]

/-- Derive-generated `TopologyLevel::into_c`. -/
def TopologyLevel.into_c : TopologyLevel → Nat
  | .Internal => 0
  | .Single => 1
  | .Multiple => 2
  | .HostBridge => 3
  | .Cpu => 4
  | .System => 5

/-- Derive-generated `TopologyLevel::try_from`. -/
def TopologyLevel.try_from : Nat → Except NvmlError TopologyLevel :=
  enumFromNative TopologyLevel.variants

/-- `PerformancePolicy` (`enum_wrappers.rs`). -/
inductive PerformancePolicy where
  | Power
  | Thermal
  | SyncBoost
  deriving DecidableEq, Repr

/-- Declaration-order variant list of `PerformancePolicy`. -/
def PerformancePolicy.variants : List PerformancePolicy :=
  [.Power, .Thermal, .SyncBoost]

/-- Derive-generated `PerformancePolicy::into_c`. -/
def PerformancePolicy.into_c : PerformancePolicy → Nat
  | .Power => 0
  | .Thermal => 1
  | .SyncBoost => 2

/-- Derive-generated `PerformancePolicy::try_from`. -/
def PerformancePolicy.try_from : Nat → Except NvmlError PerformancePolicy :=
  enumFromNative PerformancePolicy.variants

/-- `FanState` (`enum_wrappers.rs`). -/
inductive FanState where
  | Normal
  | Failed
  deriving DecidableEq, Repr

/-- Declaration-order variant list of `FanState`. -/
def FanState.variants : List FanState := [.Normal, .Failed]

/-- Derive-generated `FanState::into_c`. -/
def FanState.into_c : FanState → Nat
  | .Normal => 0
  | .Failed => 1

/-- Derive-generated `FanState::try_from`. -/
def FanState.try_from : Nat → Except NvmlError FanState :=
  enumFromNative FanState.variants

/-- `LedColor` (`enum_wrappers.rs`). -/
inductive LedColor where
  | Green
  | Amber
  deriving DecidableEq, Repr

/-- Declaration-order variant list of `LedColor`. -/
def LedColor.variants : List LedColor := [.Green, .Amber]

/-- Derive-generated `LedColor::into_c`. -/
def LedColor.into_c : LedColor → Nat
  | .Green => 0
  | .Amber => 1

/-- Derive-generated `LedColor::try_from`. -/
def LedColor.try_from : Nat → Except NvmlError LedColor :=
  enumFromNative LedColor.variants

/-- `ComputeMode` (`enum_wrappers.rs`). -/
inductive ComputeMode where
  | Default
  | ExclusiveThread
  | Prohibited
  | ExclusiveProcess
  deriving DecidableEq, Repr

/-- Declaration-order variant list of `ComputeMode`. -/
def ComputeMode.variants : List ComputeMode :=
  [.Default, .ExclusiveThread, .Prohibited, .ExclusiveProcess]

/-- Derive-generated `ComputeMode::into_c`. -/
def ComputeMode.into_c : ComputeMode → Nat
  | .Default => 0
  | .ExclusiveThread => 1
  | .Prohibited => 2
  | .ExclusiveProcess => 3

/-- Derive-generated `ComputeMode::try_from`. -/
def ComputeMode.try_from : Nat → Except NvmlError ComputeMode :=
  enumFromNative ComputeMode.variants

/-- Native `nvmlEnableState_t`, a closed two-variant enumeration.

Modelled from the spec: the `nvml_sys` declarations are not under `src/`;
§2 describes them as pure type descriptions mirrored from the vendor
header. -/
inductive nvmlEnableState_t where
  | NVML_FEATURE_DISABLED
  | NVML_FEATURE_ENABLED
  deriving DecidableEq, Repr

/-- `bool_from_state` (`enum_wrappers.rs`). -/
def bool_from_state (state : nvmlEnableState_t) : Bool :=
  match state with
  | .NVML_FEATURE_DISABLED => false
  | .NVML_FEATURE_ENABLED => true

/-- `state_from_bool` (`enum_wrappers.rs`). -/
def state_from_bool (b : Bool) : nvmlEnableState_t :=
  match b with
  | false => .NVML_FEATURE_DISABLED
  | true => .NVML_FEATURE_ENABLED

/-- Native `nvmlBridgeChipType_t`, a closed two-variant enumeration.

Modelled from the spec: the `nvml_sys` declarations are not under `src/`;
§2 describes the native surface as closed type declarations mirroring the
vendor header. -/
inductive nvmlBridgeChipType_t where
  | NVML_BRIDGE_CHIP_PLX
  | NVML_BRIDGE_CHIP_BRO4
  deriving DecidableEq, Repr

/-- The integer code of a `nvmlBridgeChipType_t` value (declaration-order
index, as for the wrapper enumerations). -/
def nvmlBridgeChipType_t.code : nvmlBridgeChipType_t → Nat
  | .NVML_BRIDGE_CHIP_PLX => 0
  | .NVML_BRIDGE_CHIP_BRO4 => 1

/-- Derive-generated infallible `impl From<nvmlBridgeChipType_t> for
BridgeChip`, the conversion `struct_wrappers.rs` uses at
`BridgeChip::from(struct_.type_)`: total over the closed native type.

Modelled from the spec: the `nvml_derive` crate is not under `src/`; each
native variant maps to the wrapper variant declared with it in
`enum_wrappers.rs`. -/
def BridgeChip.from_c : nvmlBridgeChipType_t → BridgeChip
  | .NVML_BRIDGE_CHIP_PLX => .PLX
  | .NVML_BRIDGE_CHIP_BRO4 => .BRO4

/-! ## Struct marshalers (`struct_wrappers.rs`): accounting stats and
bridge-chip hierarchy -/

/-- `NVML_VALUE_NOT_AVAILABLE`.

Modelled from the spec: the `nvml_sys` constants are not under `src/`; §6
requires them to match the vendor header, where the sentinel is `(-1)`. -/
def NVML_VALUE_NOT_AVAILABLE : Int := -1

/-- `(NVML_VALUE_NOT_AVAILABLE) as u32` (`struct_wrappers.rs`,
`not_avail_u32`): the sentinel truncated to 32 bits. -/
def not_avail_u32 : Nat := (NVML_VALUE_NOT_AVAILABLE % (2 ^ 32 : Int)).toNat

/-- `(NVML_VALUE_NOT_AVAILABLE) as u64` (`struct_wrappers.rs`,
`not_avail_u64`): the sentinel truncated to 64 bits. -/
def not_avail_u64 : Nat := (NVML_VALUE_NOT_AVAILABLE % (2 ^ 64 : Int)).toNat

/-- Native `nvmlAccountingStats_t` struct (the `reserved` field the source
ignores is omitted).

Modelled from the spec: the `nvml_sys` declarations are not under `src/`;
the fields are the ones `struct_wrappers.rs` reads.  `gpuUtilization`,
`memoryUtilization` and `isRunning` are `c_uint` values (below `2^32`),
`maxMemoryUsage`, `startTime` and `time` are `c_ulonglong` values (below
`2^64`). -/
structure nvmlAccountingStats_t where
  gpuUtilization : Nat
  isRunning : Nat
  maxMemoryUsage : Nat
  memoryUtilization : Nat
  startTime : Nat
  time : Nat
  deriving DecidableEq, Repr

/-- `AccountingStats` (`struct_wrappers.rs`). -/
structure AccountingStats where
  gpu_utilization : Option Nat
  is_running : Bool
  max_memory_usage : Option Nat
  memory_utilization : Option Nat
  start_time : Nat
  time : Nat
  deriving DecidableEq, Repr

/-- `impl From<nvmlAccountingStats_t> for AccountingStats`
(`struct_wrappers.rs`): each utilization/memory field becomes `None`
exactly on the truncated sentinel, `is_running` is `false` exactly on `0`. -/
def AccountingStats.fromNative (s : nvmlAccountingStats_t) : AccountingStats :=
  { gpu_utilization :=
      if s.gpuUtilization = not_avail_u32 then none else some s.gpuUtilization
    is_running :=
      match s.isRunning with
      | 0 => false
      | _ => true
    max_memory_usage :=
      if s.maxMemoryUsage = not_avail_u64 then none else some s.maxMemoryUsage
    memory_utilization :=
      if s.memoryUtilization = not_avail_u32 then none
      else some s.memoryUtilization
    start_time := s.startTime
    time := s.time }

/-- `NVML_MAX_PHYSICAL_BRIDGE`.

Modelled from the spec: the `nvml_sys` constants are not under `src/`; the
source's own comment in `struct_wrappers.rs` records the native array as
`[BridgeChipInfo; 128]`. -/
def NVML_MAX_PHYSICAL_BRIDGE : Nat := 128

/-- `FirmwareVersion` wrapper of the raw firmware-version value.

Modelled from the spec: `enums.rs` is not under `src/`; §3 only requires
result values to be owned copies of the native contents, so the wrapper
keeps the raw value read in `struct_wrappers.rs`
(`FirmwareVersion::from(struct_.fwVersion as u32)`). -/
structure FirmwareVersion where
  raw : Nat
  deriving DecidableEq, Repr

/-- Native `nvmlBridgeChipInfo_t` struct.

Modelled from the spec: the `nvml_sys` declarations are not under `src/`;
the fields are the ones `struct_wrappers.rs` reads. -/
structure nvmlBridgeChipInfo_t where
  type_ : nvmlBridgeChipType_t
  fwVersion : Nat
  deriving DecidableEq, Repr

/-- `BridgeChipInfo` (`struct_wrappers.rs`). -/
structure BridgeChipInfo where
  fw_version : FirmwareVersion
  chip_type : BridgeChip
  deriving DecidableEq, Repr

/-- `impl From<nvmlBridgeChipInfo_t> for BridgeChipInfo`
(`struct_wrappers.rs`): convert the firmware version and the chip type
(through the infallible `BridgeChip::from` over the closed native type). -/
def BridgeChipInfo.fromNative (s : nvmlBridgeChipInfo_t) : BridgeChipInfo :=
  { fw_version := ⟨s.fwVersion⟩
    chip_type := BridgeChip.from_c s.type_ }

/-- Native `nvmlBridgeChipHierarchy_t` struct; the fixed-size native array
`bridgeChipInfo : [nvmlBridgeChipInfo_t; NVML_MAX_PHYSICAL_BRIDGE]` is
modelled as a list whose length is `NVML_MAX_PHYSICAL_BRIDGE` (stated as a
hypothesis where it matters).

Modelled from the spec: the `nvml_sys` declarations are not under `src/`;
the fields are the ones `struct_wrappers.rs` reads. -/
structure nvmlBridgeChipHierarchy_t where
  bridgeCount : Nat
  bridgeChipInfo : List nvmlBridgeChipInfo_t
  deriving DecidableEq, Repr

/-- `BridgeChipHierarchy` (`struct_wrappers.rs`). -/
structure BridgeChipHierarchy where
  chips_hierarchy : List BridgeChipInfo
  chip_count : Nat
  deriving DecidableEq, Repr

/-- `impl From<nvmlBridgeChipHierarchy_t> for BridgeChipHierarchy`
(`struct_wrappers.rs`): the vector is rebuilt by mapping
`BridgeChipInfo::from` over the whole fixed-size native array (the
`Vec::with_capacity` value is immediately overwritten and
`shrink_to_fit` does not change contents); `chip_count` copies
`bridgeCount`. -/
def BridgeChipHierarchy.fromNative (s : nvmlBridgeChipHierarchy_t) :
    BridgeChipHierarchy :=
  { chips_hierarchy := s.bridgeChipInfo.map BridgeChipInfo.fromNative
    chip_count := s.bridgeCount }

/-! ## Helper lemmas -/

/-- Any code at or past the number of declared variants is rejected. -/
theorem enumFromNative_add (variants : List α) (n : Nat) :
    enumFromNative variants (variants.length + n) =
      .error (.leaf .UnrecognizedEnumVariant) := by
  have h : variants[variants.length + n]? = none :=
    List.getElem?_eq_none (by omega)
  simp [enumFromNative, h]

/-- Reading up to the first null terminator returns exactly the bytes
before it. -/
theorem cstrBytes_append (pre suf : List Nat) (h : 0 ∉ pre) :
    cstrBytes (pre ++ 0 :: suf) = pre := by
  induction pre with
  | nil => simp [cstrBytes]
  | cons a t ih =>
    have ha : a ≠ 0 := fun e => h (by simp [e])
    have ht : 0 ∉ t := fun m => h (by simp [m])
    simp [cstrBytes, List.takeWhile] at ih ⊢
    simp [ha, Ne.symm ha, ih ht]

/-! ## Claims -/

/-- C1 counterexample.  When registration fails with `Unknown` and the
destroy call itself fails (here with `InvalidArg`), the value returned to
the caller is the destroy failure wrapped with the message
`Error is from destroy call`; the original `Unknown` error appears nowhere
in the returned error's chain, so the destroy failure is not chained onto
the original `Unknown` error and the caller cannot observe the original
failure as part of the result. -/
theorem C1_register_events_counterexample :
    (Device.register_events ⟨0⟩ (.error (.leaf .Unknown))
        (.error (.leaf .InvalidArg))).1 =
      .error (chainErr "Error is from destroy call" (.leaf .InvalidArg))
    ∧ ErrorKind.Unknown ∉
        (chainErr "Error is from destroy call"
          (NvmlError.leaf .InvalidArg)).kinds := by
  constructor
  · rfl
  · simp [chainErr, NvmlError.kinds]

/-- C1 (amended): when `Device::register_events` receives the `Unknown`
status from the native registration call, exactly one destroy call is
issued on the passed-in `EventSet` before an error is surfaced; when the
destroy succeeds the caller observes the original `Unknown` error, and
when the destroy fails the caller observes the destroy failure wrapped
with the message `Error is from destroy call`, which replaces the original
`Unknown` error instead of being chained onto it. -/
theorem C1_register_events_unknown_destroy (set : EventSet) (d : NvmlError) :
    Device.register_events set (.error (.leaf .Unknown)) (.ok ()) =
      (.error (.leaf .Unknown), 1)
    ∧ Device.register_events set (.error (.leaf .Unknown)) (.error d) =
        (.error (chainErr "Error is from destroy call" d), 1) := by
  exact ⟨rfl, rfl⟩

/-- C2: session teardown has two failure behaviours.  The explicit
`NVML::shutdown` call returns the translated native shutdown error to the
caller as a typed `Result`, while the `Drop` implementation runs the same
native shutdown call and turns its failure into a fatal outcome (it
panics) instead of returning normally and swallowing it. -/
theorem C2_shutdown_vs_drop (status : Nat) (e : NvmlError)
    (h : nvml_try status = .error e) :
    NVML.shutdown status = .error e
    ∧ NVML.dropImpl status = .fatal e
    ∧ NVML.dropImpl status ≠ .normal
    ∧ (∀ s : Nat, nvml_try s = .ok () → NVML.dropImpl s = .normal) := by
  refine ⟨h, ?_, ?_, ?_⟩
  · simp [NVML.dropImpl, h]
  · simp [NVML.dropImpl, h]
  · intro s hs
    simp [NVML.dropImpl, hs]

/-- C2 witness: at native status code `1` the translator reports
`Uninitialized`; the explicit call surfaces it and the drop path is
fatal. -/
theorem C2_shutdown_vs_drop_witness :
    nvml_try 1 = .error (.leaf .Uninitialized)
    ∧ NVML.shutdown 1 = .error (.leaf .Uninitialized)
    ∧ NVML.dropImpl 1 = .fatal (.leaf .Uninitialized)
    ∧ NVML.dropImpl 1 ≠ .normal :=
  ⟨rfl, (C2_shutdown_vs_drop 1 (.leaf .Uninitialized) rfl).1,
   (C2_shutdown_vs_drop 1 (.leaf .Uninitialized) rfl).2.1,
   (C2_shutdown_vs_drop 1 (.leaf .Uninitialized) rfl).2.2.1⟩

/-- C3: evaluation at the failing input.  With requested capacity `10`, a
successful native call writing back count `1`, and the buffer at word
address `0` of native memory holding the single pid `5` (while address `5`
holds `77`), `Device::accounting_pids` returns `[77]` — the word at the
address equal to the first pid's *value* (the source casts `first_item`,
the value of the first buffer word, to a pointer instead of taking the
variable's address) — and not `[5]`, the first native entry, as the claim
requires.  The sibling queries `running_compute_processes` and
`retired_pages` do read the buffer itself and return exactly the
written-back count of elements (here `3` from a capacity-`10` request),
unaffected by buffer contents past that count. -/
theorem C3_count_reported_arrays_eval :
    Device.accounting_pids 10 (.ok ()) 1 0
        (fun a => if a = 0 then 5 else if a = 5 then 77 else 0) = .ok [77]
    ∧ Device.accounting_pids 10 (.ok ()) 1 0
        (fun a => if a = 0 then 5 else if a = 5 then 77 else 0) ≠ .ok [5]
    ∧ Device.running_compute_processes 10 (.ok ()) 3
        (fun i => ⟨i + 1, 100 + i⟩) =
        .ok [⟨1, ⟨100⟩⟩, ⟨2, ⟨101⟩⟩, ⟨3, ⟨102⟩⟩]
    ∧ Device.running_compute_processes 10 (.ok ()) 3
        (fun i => ⟨i + 1, 100 + i⟩) =
      Device.running_compute_processes 10 (.ok ()) 3
        (fun i => if i < 3 then ⟨i + 1, 100 + i⟩ else ⟨999, 999⟩)
    ∧ Device.retired_pages 10 (.ok ()) 3 (fun i => 1000 + i) =
        .ok [1000, 1001, 1002] := by
  refine ⟨rfl, ?_, rfl, rfl, rfl⟩
  intro h
  simp [Device.accounting_pids, List.range_succ] at h

/-- C4: for every enumeration mirrored from native integer codes, the
fallible conversion rejects every integer at or past the declared variant
count with `UnrecognizedEnumVariant` (the declared codes are
`0 .. count-1`), and the one infallible conversion used in the marshalers
(`BridgeChip::from` over the closed native type `nvmlBridgeChipType_t`)
agrees with the fallible conversion on every representable native value, so
no unrecognized native value is silently mapped to a valid-looking
variant. -/
theorem C4_unrecognized_enum_variant :
    (∀ n, Api.try_from (2 + n) = .error (.leaf .UnrecognizedEnumVariant))
    ∧ (∀ n, Clock.try_from (4 + n) = .error (.leaf .UnrecognizedEnumVariant))
    ∧ (∀ n, ClockId.try_from (4 + n) = .error (.leaf .UnrecognizedEnumVariant))
    ∧ (∀ n, Brand.try_from (6 + n) = .error (.leaf .UnrecognizedEnumVariant))
    ∧ (∀ n, BridgeChip.try_from (2 + n) =
        .error (.leaf .UnrecognizedEnumVariant))
    ∧ (∀ n, MemoryError.try_from (2 + n) =
        .error (.leaf .UnrecognizedEnumVariant))
    ∧ (∀ n, EccCounter.try_from (2 + n) =
        .error (.leaf .UnrecognizedEnumVariant))
    ∧ (∀ n, MemoryLocation.try_from (6 + n) =
        .error (.leaf .UnrecognizedEnumVariant))
    ∧ (∀ n, DriverModel.try_from (2 + n) =
        .error (.leaf .UnrecognizedEnumVariant))
    ∧ (∀ n, OperationMode.try_from (3 + n) =
        .error (.leaf .UnrecognizedEnumVariant))
    ∧ (∀ n, InfoROM.try_from (3 + n) = .error (.leaf .UnrecognizedEnumVariant))
    ∧ (∀ n, PcieUtilCounter.try_from (2 + n) =
        .error (.leaf .UnrecognizedEnumVariant))
    ∧ (∀ n, PerformanceState.try_from (17 + n) =
        .error (.leaf .UnrecognizedEnumVariant))
    ∧ (∀ n, RetirementCause.try_from (2 + n) =
        .error (.leaf .UnrecognizedEnumVariant))
    ∧ (∀ n, Sampling.try_from (7 + n) = .error (.leaf .UnrecognizedEnumVariant))
    ∧ (∀ n, TemperatureSensor.try_from (1 + n) =
        .error (.leaf .UnrecognizedEnumVariant))
    ∧ (∀ n, TemperatureThreshold.try_from (2 + n) =
        .error (.leaf .UnrecognizedEnumVariant))
    ∧ (∀ n, TopologyLevel.try_from (6 + n) =
        .error (.leaf .UnrecognizedEnumVariant))
    ∧ (∀ n, PerformancePolicy.try_from (3 + n) =
        .error (.leaf .UnrecognizedEnumVariant))
    ∧ (∀ n, FanState.try_from (2 + n) = .error (.leaf .UnrecognizedEnumVariant))
    ∧ (∀ n, LedColor.try_from (2 + n) = .error (.leaf .UnrecognizedEnumVariant))
    ∧ (∀ n, ComputeMode.try_from (4 + n) =
        .error (.leaf .UnrecognizedEnumVariant))
    ∧ (∀ t : nvmlBridgeChipType_t,
        BridgeChip.try_from t.code = .ok (BridgeChip.from_c t)) := by
  refine ⟨fun n => enumFromNative_add _ n, fun n => enumFromNative_add _ n,
    fun n => enumFromNative_add _ n, fun n => enumFromNative_add _ n,
    fun n => enumFromNative_add _ n, fun n => enumFromNative_add _ n,
    fun n => enumFromNative_add _ n, fun n => enumFromNative_add _ n,
    fun n => enumFromNative_add _ n, fun n => enumFromNative_add _ n,
    fun n => enumFromNative_add _ n, fun n => enumFromNative_add _ n,
    fun n => enumFromNative_add _ n, fun n => enumFromNative_add _ n,
    fun n => enumFromNative_add _ n, fun n => enumFromNative_add _ n,
    fun n => enumFromNative_add _ n, fun n => enumFromNative_add _ n,
    fun n => enumFromNative_add _ n, fun n => enumFromNative_add _ n,
    fun n => enumFromNative_add _ n, fun n => enumFromNative_add _ n,
    fun t => ?_⟩
  cases t <;> rfl

/-- C5: decoding a fixed-capacity string buffer returned by a successful
native call (`Device::name`, `PciInfo::try_from` on the PCI bus id) yields
exactly the bytes before the first null terminator as text when they are
valid UTF-8 and fails with `Utf8DecodeError` (an error value, never a
panic: the decoders are total) when they are not; the bytes after the
terminator never influence the result. -/
theorem C5_string_buffer_decoding (pre suf suf2 : List Nat) (h : 0 ∉ pre) :
    Device.name (.ok ()) (pre ++ 0 :: suf) =
      (if utf8Valid pre then .ok pre else .error (.leaf .Utf8DecodeError))
    ∧ Device.name (.ok ()) (pre ++ 0 :: suf) =
        Device.name (.ok ()) (pre ++ 0 :: suf2)
    ∧ (∀ bus dev dom did sid,
        PciInfo.try_from ⟨pre ++ 0 :: suf, bus, dev, dom, did, sid⟩ =
          if utf8Valid pre then
            .ok ⟨bus, pre, dev, dom, did, sid⟩
          else .error (.leaf .Utf8DecodeError)) := by
  have hb : cstrBytes (pre ++ 0 :: suf) = pre := cstrBytes_append pre suf h
  have hb2 : cstrBytes (pre ++ 0 :: suf2) = pre := cstrBytes_append pre suf2 h
  refine ⟨?_, ?_, ?_⟩
  · simp [Device.name, cstrToStr, hb]
  · simp [Device.name, cstrToStr, hb, hb2]
  · intro bus dev dom did sid
    simp only [PciInfo.try_from, cstrToStr, hb]
    by_cases hv : utf8Valid pre <;> simp [hv]

/-- C5 witness: the buffer `[84, 0, 200]` (text `T`, then the terminator,
then a trailing byte) decodes to `[84]`, while `[200, 0, 1]` (an invalid
UTF-8 byte before the terminator) fails with `Utf8DecodeError`. -/
theorem C5_string_buffer_decoding_witness :
    (0 : Nat) ∉ [84]
    ∧ Device.name (.ok ()) ([84] ++ 0 :: [200]) = .ok [84]
    ∧ Device.name (.ok ()) ([84] ++ 0 :: [200]) =
        Device.name (.ok ()) ([84] ++ 0 :: [77])
    ∧ Device.name (.ok ()) ([200] ++ 0 :: [1]) =
        .error (.leaf .Utf8DecodeError)
    ∧ PciInfo.try_from ⟨[84] ++ 0 :: [200], 1, 2, 3, 4, 5⟩ =
        .ok ⟨1, [84], 2, 3, 4, 5⟩ := by
  refine ⟨by decide, ?_, ?_, ?_, ?_⟩
  · exact (C5_string_buffer_decoding [84] [200] [77] (by decide)).1
  · exact (C5_string_buffer_decoding [84] [200] [77] (by decide)).2.1
  · exact (C5_string_buffer_decoding [200] [1] [1] (by decide)).1
  · exact (C5_string_buffer_decoding [84] [200] [77] (by decide)).2.2 1 2 3 4 5

/-- C6: for every declared variant of every enumeration, converting to the
native integer and back yields the same variant, and
`bool_from_state(state_from_bool(b)) = b` for both boolean values. -/
theorem C6_enum_round_trips :
    (∀ v : Api, Api.try_from v.into_c = .ok v)
    ∧ (∀ v : Clock, Clock.try_from v.into_c = .ok v)
    ∧ (∀ v : ClockId, ClockId.try_from v.into_c = .ok v)
    ∧ (∀ v : Brand, Brand.try_from v.into_c = .ok v)
    ∧ (∀ v : BridgeChip, BridgeChip.try_from v.into_c = .ok v)
    ∧ (∀ v : MemoryError, MemoryError.try_from v.into_c = .ok v)
    ∧ (∀ v : EccCounter, EccCounter.try_from v.into_c = .ok v)
    ∧ (∀ v : MemoryLocation, MemoryLocation.try_from v.into_c = .ok v)
    ∧ (∀ v : DriverModel, DriverModel.try_from v.into_c = .ok v)
    ∧ (∀ v : OperationMode, OperationMode.try_from v.into_c = .ok v)
    ∧ (∀ v : InfoROM, InfoROM.try_from v.into_c = .ok v)
    ∧ (∀ v : PcieUtilCounter, PcieUtilCounter.try_from v.into_c = .ok v)
    ∧ (∀ v : PerformanceState, PerformanceState.try_from v.into_c = .ok v)
    ∧ (∀ v : RetirementCause, RetirementCause.try_from v.into_c = .ok v)
    ∧ (∀ v : Sampling, Sampling.try_from v.into_c = .ok v)
    ∧ (∀ v : TemperatureSensor, TemperatureSensor.try_from v.into_c = .ok v)
    ∧ (∀ v : TemperatureThreshold,
        TemperatureThreshold.try_from v.into_c = .ok v)
    ∧ (∀ v : TopologyLevel, TopologyLevel.try_from v.into_c = .ok v)
    ∧ (∀ v : PerformancePolicy, PerformancePolicy.try_from v.into_c = .ok v)
    ∧ (∀ v : FanState, FanState.try_from v.into_c = .ok v)
    ∧ (∀ v : LedColor, LedColor.try_from v.into_c = .ok v)
    ∧ (∀ v : ComputeMode, ComputeMode.try_from v.into_c = .ok v)
    ∧ (∀ b : Bool, bool_from_state (state_from_bool b) = b) := by
  refine ⟨fun v => ?_, fun v => ?_, fun v => ?_, fun v => ?_, fun v => ?_,
    fun v => ?_, fun v => ?_, fun v => ?_, fun v => ?_, fun v => ?_,
    fun v => ?_, fun v => ?_, fun v => ?_, fun v => ?_, fun v => ?_,
    fun v => ?_, fun v => ?_, fun v => ?_, fun v => ?_, fun v => ?_,
    fun v => ?_, fun v => ?_, fun b => ?_⟩ <;> first
  | (cases v <;> rfl)
  | (cases b <;> rfl)

/-- C7: when the native call behind a count-reported array query fails with
`InsufficientSize`, each wrapper returns that error and no partial
collection: the error is surfaced before any vector is built. -/
theorem C7_insufficient_size_no_partial :
    ∀ (size countOut : Nat) (buf : Nat → nvmlProcessInfo_t)
      (pages : Nat → Nat) (bufAddr : Nat) (mem : Nat → Nat),
      Device.running_compute_processes size
          (.error (.leaf .InsufficientSize)) countOut buf =
        .error (.leaf .InsufficientSize)
      ∧ Device.retired_pages size (.error (.leaf .InsufficientSize))
          countOut pages = .error (.leaf .InsufficientSize)
      ∧ Device.accounting_pids size (.error (.leaf .InsufficientSize))
          countOut bufAddr mem = .error (.leaf .InsufficientSize) := by
  intro size countOut buf pages bufAddr mem
  exact ⟨rfl, rfl, rfl⟩

/-- C8: `Device::name` is a pure query.  Two successive calls against the
same native library state return equal values, and the result depends only
on the stored handle and that state (the `Device` struct carries no cache
or hidden state: two devices with equal handles give equal results). -/
theorem C8_name_idempotent (native : Nat → Except NvmlError Unit × List Nat)
    (d d2 : Device) (h : d.device = d2.device) :
    Device.nameQuery native d = Device.nameQuery native d
    ∧ Device.nameQuery native d = Device.nameQuery native d2 := by
  constructor
  · rfl
  · simp [Device.nameQuery, h]

/-- C8 witness: two successive calls on the device with handle `7`, against
a native state that fills the buffer with `T\0`, both return `[84]`. -/
theorem C8_name_idempotent_witness :
    (Device.mk 7).device = (Device.mk 7).device
    ∧ Device.nameQuery (fun _ => (.ok (), [84, 0, 1])) ⟨7⟩ =
        Device.nameQuery (fun _ => (.ok (), [84, 0, 1])) ⟨7⟩
    ∧ Device.nameQuery (fun _ => (.ok (), [84, 0, 1])) ⟨7⟩ = .ok [84] :=
  ⟨rfl,
   (C8_name_idempotent (fun _ => (.ok (), [84, 0, 1])) ⟨7⟩ ⟨7⟩ rfl).1,
   rfl⟩

/-- C9: converting a native accounting-stats struct maps each of
`gpu_utilization`, `memory_utilization` and `max_memory_usage` to `None`
exactly when the native field equals `NVML_VALUE_NOT_AVAILABLE` truncated
to the field's width, to `Some` of the raw value otherwise, and maps
`is_running` to `false` exactly when the native flag is `0`. -/
theorem C9_accounting_stats_sentinels (s : nvmlAccountingStats_t) :
    ((AccountingStats.fromNative s).gpu_utilization = none ↔
      s.gpuUtilization = not_avail_u32)
    ∧ (s.gpuUtilization ≠ not_avail_u32 →
        (AccountingStats.fromNative s).gpu_utilization = some s.gpuUtilization)
    ∧ ((AccountingStats.fromNative s).memory_utilization = none ↔
        s.memoryUtilization = not_avail_u32)
    ∧ (s.memoryUtilization ≠ not_avail_u32 →
        (AccountingStats.fromNative s).memory_utilization =
          some s.memoryUtilization)
    ∧ ((AccountingStats.fromNative s).max_memory_usage = none ↔
        s.maxMemoryUsage = not_avail_u64)
    ∧ (s.maxMemoryUsage ≠ not_avail_u64 →
        (AccountingStats.fromNative s).max_memory_usage =
          some s.maxMemoryUsage)
    ∧ ((AccountingStats.fromNative s).is_running = false ↔ s.isRunning = 0)
    ∧ (s.isRunning ≠ 0 → (AccountingStats.fromNative s).is_running = true) := by
  obtain ⟨g, r, m, mu, st, t⟩ := s
  refine ⟨?_, ?_, ?_, ?_, ?_, ?_, ?_, ?_⟩ <;>
    simp only [AccountingStats.fromNative]
  · by_cases hg : g = not_avail_u32 <;> simp [hg]
  · intro hg
    simp [hg]
  · by_cases hm : mu = not_avail_u32 <;> simp [hm]
  · intro hm
    simp [hm]
  · by_cases hx : m = not_avail_u64 <;> simp [hx]
  · intro hx
    simp [hx]
  · cases r <;> simp
  · intro hr
    cases r with
    | zero => exact absurd rfl hr
    | succ k => simp

/-- C9 witness: with `gpu_utilization` at the 32-bit sentinel, memory
fields ordinary, and `is_running` flag `2`, the conversion yields `None`,
`Some`, and `true` as the claim states. -/
theorem C9_accounting_stats_sentinels_witness :
    ((AccountingStats.fromNative ⟨4294967295, 2, 5, 6, 7, 8⟩).gpu_utilization
        = none)
    ∧ (AccountingStats.fromNative
        ⟨4294967295, 2, 5, 6, 7, 8⟩).memory_utilization = some 6
    ∧ (AccountingStats.fromNative ⟨4294967295, 2, 5, 6, 7, 8⟩).max_memory_usage
        = some 5
    ∧ (AccountingStats.fromNative ⟨4294967295, 2, 5, 6, 7, 8⟩).is_running
        = true :=
  ⟨(C9_accounting_stats_sentinels ⟨4294967295, 2, 5, 6, 7, 8⟩).1.mpr
      (by decide),
   (C9_accounting_stats_sentinels ⟨4294967295, 2, 5, 6, 7, 8⟩).2.2.2.1
      (by decide),
   (C9_accounting_stats_sentinels ⟨4294967295, 2, 5, 6, 7, 8⟩).2.2.2.2.2.1
      (by decide),
   (C9_accounting_stats_sentinels ⟨4294967295, 2, 5, 6, 7, 8⟩).2.2.2.2.2.2.2
      (by decide)⟩

/-- C10: converting a native bridge-chip-hierarchy struct always produces
one converted entry per slot of the fixed-size native array
(`NVML_MAX_PHYSICAL_BRIDGE` entries, in array order), regardless of the
reported `bridgeCount`, which is copied into the separate `chip_count`
field; the vector is not truncated to `chip_count` elements. -/
theorem C10_bridge_chip_hierarchy (s : nvmlBridgeChipHierarchy_t)
    (h : s.bridgeChipInfo.length = NVML_MAX_PHYSICAL_BRIDGE) :
    (BridgeChipHierarchy.fromNative s).chips_hierarchy.length =
      NVML_MAX_PHYSICAL_BRIDGE
    ∧ (BridgeChipHierarchy.fromNative s).chips_hierarchy =
        s.bridgeChipInfo.map BridgeChipInfo.fromNative
    ∧ (BridgeChipHierarchy.fromNative s).chip_count = s.bridgeCount := by
  refine ⟨?_, rfl, rfl⟩
  simp [BridgeChipHierarchy.fromNative, h]

/-- C10 witness: a native struct reporting `bridgeCount = 3` over a full
`128`-slot array still yields `128` converted entries, with `chip_count`
equal to `3`. -/
theorem C10_bridge_chip_hierarchy_witness :
    (nvmlBridgeChipHierarchy_t.mk 3
        (List.replicate 128 ⟨.NVML_BRIDGE_CHIP_PLX, 0⟩)).bridgeChipInfo.length
      = NVML_MAX_PHYSICAL_BRIDGE
    ∧ (BridgeChipHierarchy.fromNative
        ⟨3, List.replicate 128 ⟨.NVML_BRIDGE_CHIP_PLX, 0⟩⟩).chips_hierarchy.length
      = NVML_MAX_PHYSICAL_BRIDGE
    ∧ (BridgeChipHierarchy.fromNative
        ⟨3, List.replicate 128 ⟨.NVML_BRIDGE_CHIP_PLX, 0⟩⟩).chip_count = 3 := by
  have h : (nvmlBridgeChipHierarchy_t.mk 3
      (List.replicate 128 ⟨.NVML_BRIDGE_CHIP_PLX, 0⟩)).bridgeChipInfo.length
      = NVML_MAX_PHYSICAL_BRIDGE := by
    simp [NVML_MAX_PHYSICAL_BRIDGE]
  exact ⟨h,
    (C10_bridge_chip_hierarchy ⟨3, List.replicate 128 ⟨.NVML_BRIDGE_CHIP_PLX, 0⟩⟩ h).1,
    (C10_bridge_chip_hierarchy ⟨3, List.replicate 128 ⟨.NVML_BRIDGE_CHIP_PLX, 0⟩⟩ h).2.2⟩

end Nvml
